import Mathlib

/-!
Verification development for the TID GNSS reference-matching and
spatial-derivation engine.

Shallow embedding of the code in
`src/Cleaning_Formatter/KML_protocol_analyzer.py`,
`src/Cleaning_Formatter/GPX_cleaner_formatter.py`,
`src/Plot_results/compute_p2_stats.py` and
`src/Plot_results/plot_protocol.py`.

Conventions of the embedding:
- Python floats (longitudes, latitudes, coordinates) are modelled as ℚ;
  the claims are about finite numeric inputs, where float arithmetic is
  the rounded image of exact rational arithmetic.
- pandas string columns are modelled as lists of characters; a data frame
  is a list of rows together with a flag telling whether the optional
  `Description` column exists.
- `pandas.Series.str.contains(pat, case=False)` treats `pat` as a regular
  expression; every pattern the analyzer passes (protocol labels and a
  single digit) contains no regex metacharacter, so on the analyzer's
  patterns it coincides with case-insensitive substring containment,
  which is what we model.
- geopandas GeoDataFrames carry a CRS tag, modelled as `Option ℤ`.
-/

abbrev Chars := List Char

abbrev Q2 := ℚ × ℚ

/-- Case-folding used by `case=False` matching (ASCII lowercase). -/
def lowerL (s : Chars) : Chars := s.map Char.toLower

/-- Prefix test on character lists. -/
def isPrefixL : Chars → Chars → Bool
  | [], _ => true
  | _ :: _, [] => false
  | a :: as, b :: bs => (a == b) && isPrefixL as bs

/-- Substring containment: does the haystack contain `pat`? -/
def containsSub (pat : Chars) : Chars → Bool
  | [] => pat.isEmpty
  | c :: t => isPrefixL pat (c :: t) || containsSub pat t

/-- `hay.str.contains(pat, case=False)` on literal (metacharacter-free) patterns. -/
def subCI (hay pat : Chars) : Bool := containsSub (lowerL pat) (lowerL hay)

/-- `hay.str.contains(pat)` (case-sensitive) on literal patterns. -/
def subCS (hay pat : Chars) : Bool := containsSub pat hay

/-- Arithmetic mean of a list of rationals (0 on the empty list, which the
code never queries without first guarding emptiness). -/
def meanList (l : List ℚ) : ℚ := l.sum / (l.length : ℚ)

/-! ## CRS Resolver (`lonlat_to_utm_epsg`, both classes) -/

/-- `KMLProtocolAnalyzer.lonlat_to_utm_epsg`:
`zone = int(((lon + 180) // 6) % 60) + 1`, then `32600 + zone` for
`lat >= 0` and `32700 + zone` otherwise. -/
def KML_lonlat_to_utm_epsg (lon lat : ℚ) : ℤ :=
  let zone : ℤ := (⌊(lon + 180) / 6⌋ % 60) + 1
  if 0 ≤ lat then 32600 + zone else 32700 + zone

/-- `GPXCleanerFormatter.lonlat_to_utm_epsg`:
`zone = int((math.floor((lon + 180) / 6) % 60) + 1)`, same EPSG choice. -/
def GPX_lonlat_to_utm_epsg (lon lat : ℚ) : ℤ :=
  let zone : ℤ := (⌊(lon + 180) / 6⌋ % 60) + 1
  if 0 ≤ lat then 32600 + zone else 32700 + zone

/-- Written from the spec's words (section 4.1), for comparison with the
code: Zone = `floor((longitude + 180) / 6) mod 60 + 1`;
EPSG = `32600 + zone` if `latitude >= 0`, else `32700 + zone`. -/
def resolve_utm_epsg_spec (longitude latitude : ℚ) : ℤ :=
  let zone : ℤ := (⌊(longitude + 180) / 6⌋ % 60) + 1
  if 0 ≤ latitude then 32600 + zone else 32700 + zone

/-! ## Collection EPSG resolution (`to_utm` / `project_refs_to_utm_for_points`)

A collection of track points is a list of coordinate pairs.  The shapely
`unary_union` of a set of points merges duplicates; its centroid, when the
union is not empty, is the mean of the distinct points.  An empty union has
no coordinates, and reading `centroid.x` raises, which the GPX code catches. -/

/-- Centroid of the unary union of a nonempty point collection:
arithmetic mean of the distinct points. -/
def unionCentroidD (pts : List Q2) : Q2 :=
  ((meanList ((pts.dedup).map Prod.fst)), (meanList ((pts.dedup).map Prod.snd)))

/-- Centroid of the unary union; `none` when the union is empty. -/
def unionCentroid (pts : List Q2) : Option Q2 :=
  if pts.dedup.isEmpty then none else some (unionCentroidD pts)

/-- The `except` branch of `GPXCleanerFormatter.to_utm`:
`lon = xs.mean() if not xs.empty else 0.0`, same for `lat`. -/
def GPX_fallbackMeanLonLat (pts : List Q2) : Q2 :=
  ((if pts.isEmpty then 0 else meanList (pts.map Prod.fst)),
   (if pts.isEmpty then 0 else meanList (pts.map Prod.snd)))

/-- Longitude/latitude selection of `GPXCleanerFormatter.to_utm` when
`epsg is None`: try the centroid of the unary union, fall back to the
per-column arithmetic mean (or 0.0) when that raises. -/
def GPX_to_utm_lonlat (pts : List Q2) : Q2 :=
  match unionCentroid pts with
  | some c => c
  | none => GPX_fallbackMeanLonLat pts

/-- The EPSG the GPX cleaner projects to. -/
def GPX_to_utm_epsg (pts : List Q2) : ℤ :=
  GPX_lonlat_to_utm_epsg (GPX_to_utm_lonlat pts).1 (GPX_to_utm_lonlat pts).2

/-- Error raised by `KMLProtocolAnalyzer.project_refs_to_utm_for_points`
on an empty or missing points layer (`ValueError`, the spec's
`EmptyInputError`). -/
inductive ResolveErr where
  | emptyInput
  deriving DecidableEq

/-- `KMLProtocolAnalyzer.project_refs_to_utm_for_points`: raises on an
empty points layer, otherwise resolves the EPSG from the centroid of the
union of the points.  It has no mean fallback. -/
def KML_project_refs_to_utm_epsg (pts : List Q2) : Except ResolveErr ℤ :=
  if pts.isEmpty then Except.error ResolveErr.emptyInput
  else Except.ok (KML_lonlat_to_utm_epsg (unionCentroidD pts).1 (unionCentroidD pts).2)

/-! ## Feature Matcher (`split_by_protocol` and its `_match_patterns`) -/

/-- Geometry type tag of a KML feature (`geometry.type`). -/
inductive GType where
  | point
  | lineString
  | multiLineString
  | polygon
  deriving DecidableEq

/-- One KML row: `name`, `Description` (empty list when the column is
absent) and its geometry type. -/
structure Feature where
  name : Chars
  desc : Chars
  gtype : GType
  deriving DecidableEq

/-- The loaded GeoDataFrame: rows plus whether the `Description` column
exists. -/
structure Frame where
  rows : List Feature
  hasDescription : Bool
  deriving DecidableEq

/-- Mask of `df["name"].astype(str).str.contains(pat, case=False)`. -/
def nameMask (rows : List Feature) (pat : Chars) : List Bool :=
  rows.map fun r => subCI r.name pat

/-- Mask of `df["Description"].astype(str).str.contains(pat, case=False)`. -/
def descMask (rows : List Feature) (pat : Chars) : List Bool :=
  rows.map fun r => subCI r.desc pat

/-- The mask list `_match_patterns` accumulates: for each pattern, the name
mask, then the Description mask when that column exists. -/
def patMasks (fr : Frame) : List Chars → List (List Bool)
  | [] => []
  | p :: ps =>
      nameMask fr.rows p ::
        (if fr.hasDescription then descMask fr.rows p :: patMasks fr ps else patMasks fr ps)

/-- The predicates underlying `patMasks`, in the same order. -/
def predsOf (fr : Frame) : List Chars → List (Feature → Bool)
  | [] => []
  | p :: ps =>
      (fun r => subCI r.name p) ::
        (if fr.hasDescription then (fun r => subCI r.desc p) :: predsOf fr ps else predsOf fr ps)

/-- OR-combination of the masks (`combined = masks[0]; combined |= m`),
with the all-`False` series when there is no mask. -/
def orCombine (ms : List (List Bool)) (n : ℕ) : List Bool :=
  match ms with
  | [] => List.replicate n false
  | m :: rest => rest.foldl (fun acc x => List.zipWith (fun a b => a || b) acc x) m

/-- `df.loc[mask]`: keep the rows whose mask entry is `True`. -/
def selectByMask : List Feature → List Bool → List Feature
  | [], _ => []
  | _ :: _, [] => []
  | r :: rs, b :: bs => if b then r :: selectByMask rs bs else selectByMask rs bs

/-- A row matches when some pattern matches the name, or the Description
when that column exists (logical OR across patterns and fields). -/
def rowPred (fr : Frame) (pats : List Chars) (r : Feature) : Bool :=
  pats.any fun p => subCI r.name p || (fr.hasDescription && subCI r.desc p)

/-- `_match_patterns(df, patterns)` followed by `df.loc[mask]`. -/
def match_patterns (fr : Frame) (pats : List Chars) : List Feature :=
  selectByMask fr.rows (orCombine (patMasks fr pats) fr.rows.length)

def sProtocoloSp : Chars := "Protocolo ".toList
def sProtocoloUs : Chars := "Protocolo_".toList
def sPUp : Chars := "P".toList
def sProtocolSp : Chars := "Protocol ".toList
def sPLow : Chars := "p".toList

/-- The default candidate patterns generated from the protocol digit `n`:
`[f"Protocolo {n}", f"Protocolo_{n}", f"P{n}", f"Protocol {n}", f"p{n}"]`. -/
def defaultPats (n : Char) : List Chars :=
  [sProtocoloSp ++ [n], sProtocoloUs ++ [n], sPUp ++ [n], sProtocolSp ++ [n], sPLow ++ [n]]

/-- The loose fallback predicate: the bare protocol digit, matched
case-sensitively against `name` and against `Description` (an empty-string
series stands in when the column is absent). -/
def loosePred (fr : Frame) (n : Char) (r : Feature) : Bool :=
  subCS r.name [n] || subCS (if fr.hasDescription then r.desc else []) [n]

/-- The loose fallback mask `mask2` of `split_by_protocol`. -/
def looseMask (fr : Frame) (n : Char) : List Bool :=
  fr.rows.map (loosePred fr n)

/-- The body of `split_by_protocol` for one key with default patterns,
where `n` is the protocol digit: primary ordered patterns, then, when the
subset is empty, the loose single-digit retry. -/
def split_by_protocol_for_key (fr : Frame) (n : Char) : List Feature :=
  let subset := match_patterns fr (defaultPats n)
  if subset.isEmpty then selectByMask fr.rows (looseMask fr n) else subset

/-! ## Geometry Deriver: P2 (`_build_protocol_artifacts`) -/

/-- The `kind` strings of the P2 artifacts: `"outer"`, `"inner"`,
`"start_line"`, `f"line_{i}"`. -/
inductive P2Kind where
  | outer
  | inner
  | start_line
  | line (i : ℕ)
  deriving DecidableEq

/-- `geometry.type.isin(["LineString", "MultiLineString"])`. -/
def isLineType : GType → Bool
  | GType.lineString => true
  | GType.multiLineString => true
  | _ => false

/-- `["outer", "inner", "start_line"][i] if i < 3 else f"line_{i}"`. -/
def kindFor (i : ℕ) : P2Kind :=
  if i = 0 then P2Kind.outer
  else if i = 1 then P2Kind.inner
  else if i = 2 then P2Kind.start_line
  else P2Kind.line i

/-- The positional fallback: line-type rows of the matched P2 subset, in
encounter order, assigned `kindFor` their index. -/
def p2FallbackRows (subset : List Feature) : List (P2Kind × Feature) :=
  ((subset.filter fun r => isLineType r.gtype).enum).map fun x => (kindFor x.1, x.2)

/-- `_get_first_named_geom`: first row whose name contains the substring,
case-insensitively. -/
def get_first_named_geom (fr : Frame) (pat : Chars) : Option Feature :=
  fr.rows.find? fun r => subCI r.name pat

def sP2Outer : Chars := "P2 Outer".toList
def sOuterLine : Chars := "OuterLine".toList
def sP2Inner : Chars := "P2 Inner".toList
def sInnerLine : Chars := "Inner Line".toList
def sP2Start : Chars := "P2 Start".toList
def sStartLine : Chars := "Start Line".toList

/-- The P2 part of `_build_protocol_artifacts`: resolve outer, inner and
start line by name, in that order; when none resolves, fall back to the
positional assignment over the matched P2 subset. -/
def build_p2_artifacts (fr : Frame) (subset : List Feature) : List (P2Kind × Feature) :=
  let outerF := (get_first_named_geom fr sP2Outer).orElse fun _ => get_first_named_geom fr sOuterLine
  let innerF := (get_first_named_geom fr sP2Inner).orElse fun _ => get_first_named_geom fr sInnerLine
  let startF := (get_first_named_geom fr sP2Start).orElse fun _ => get_first_named_geom fr sStartLine
  let rows :=
    (outerF.toList.map fun f => (P2Kind.outer, f)) ++
    (innerF.toList.map fun f => (P2Kind.inner, f)) ++
    (startF.toList.map fun f => (P2Kind.start_line, f))
  if rows.isEmpty then p2FallbackRows subset else rows

/-! ## Geometry Deriver: P3 crossing (`_build_protocol_artifacts`)

Shapely geometries that can come out of a line/line intersection, enough
to express the result handling of lines 177-189 of the analyzer.  A
`LineString` of the model is a straight segment between two coordinates. -/

inductive SGeom where
  | pointG (p : Q2)
  | segment (a b : Q2)
  | multiPoint (ps : List Q2)
  | multiLine (ss : List (Q2 × Q2))
  | collection (gs : List SGeom)
  | emptyGeom

/-- `geometry.is_empty`. -/
def sIsEmpty : SGeom → Bool
  | SGeom.pointG _ => false
  | SGeom.segment _ _ => false
  | SGeom.multiPoint ps => ps.isEmpty
  | SGeom.multiLine ss => ss.isEmpty
  | SGeom.collection gs => gs.isEmpty
  | SGeom.emptyGeom => true

/-- `geometry.geom_type == "Point"`. -/
def isPointT : SGeom → Bool
  | SGeom.pointG _ => true
  | _ => false

/-- The `.geoms` attribute: components of a multi-geometry or collection;
`none` (an `AttributeError`) on simple geometries. -/
def geomsAttr : SGeom → Option (List SGeom)
  | SGeom.pointG _ => none
  | SGeom.segment _ _ => none
  | SGeom.multiPoint ps => some (ps.map SGeom.pointG)
  | SGeom.multiLine ss => some (ss.map fun s => SGeom.segment s.1 s.2)
  | SGeom.collection gs => some gs
  | SGeom.emptyGeom => none

/-- `geometry.centroid`, exact on the cases `crossingOf` can reach it
(point, straight segment, nonempty multipoint); the multi cases expose
`.geoms` and so never reach the centroid fallback of the analyzer, and on
an empty geometry the centroid is the empty geometry. -/
def centroidG : SGeom → SGeom
  | SGeom.pointG p => SGeom.pointG p
  | SGeom.segment a b => SGeom.pointG ((a.1 + b.1) / 2, (a.2 + b.2) / 2)
  | SGeom.multiPoint ps =>
      if ps.isEmpty then SGeom.emptyGeom
      else SGeom.pointG (meanList (ps.map Prod.fst), meanList (ps.map Prod.snd))
  | SGeom.multiLine _ => SGeom.emptyGeom
  | SGeom.collection _ => SGeom.emptyGeom
  | SGeom.emptyGeom => SGeom.emptyGeom

/-- The intersection-result handling of `_build_protocol_artifacts`:
empty result yields no crossing; a point is taken as is; otherwise the
first entry of `list(cross_geom.geoms)`, and when that attribute access or
indexing raises, `cross_geom.centroid`. -/
def crossingOf (g : SGeom) : Option SGeom :=
  if sIsEmpty g then none
  else if isPointT g then some g
  else
    match geomsAttr g with
    | some (h :: _) => some h
    | some [] => some (centroidG g)
    | none => some (centroidG g)

def cross2 (a b : Q2) : ℚ := a.1 * b.2 - a.2 * b.1

def dot2 (a b : Q2) : ℚ := a.1 * b.1 + a.2 * b.2

def sub2 (a b : Q2) : Q2 := (a.1 - b.1, a.2 - b.2)

def addScaled (p : Q2) (t : ℚ) (r : Q2) : Q2 := (p.1 + t * r.1, p.2 + t * r.2)

/-- Membership of a point on a straight segment (degenerate segments are a
single point). -/
def onSegQ (sg : Q2 × Q2) (x : Q2) : Bool :=
  let d := sub2 sg.2 sg.1
  let w := sub2 x sg.1
  if d = ((0 : ℚ), (0 : ℚ)) then decide (x = sg.1)
  else decide (cross2 d w = 0) && decide (0 ≤ dot2 w d) && decide (dot2 w d ≤ dot2 d d)

/-- Exact intersection of two straight segments, with the same result
taxonomy as shapely: empty, a single point, or the collinear overlap
segment. -/
def segIntersection (s1 s2 : Q2 × Q2) : SGeom :=
  let p := s1.1
  let r := sub2 s1.2 s1.1
  let q := s2.1
  let s := sub2 s2.2 s2.1
  let rxs := cross2 r s
  let qp := sub2 q p
  if rxs = 0 then
    if cross2 qp r ≠ 0 then SGeom.emptyGeom
    else
      let rr := dot2 r r
      if rr = 0 then
        if onSegQ s2 p then SGeom.pointG p else SGeom.emptyGeom
      else
        let t0 := dot2 qp r / rr
        let t1 := dot2 (sub2 s2.2 p) r / rr
        let lo := max 0 (min t0 t1)
        let hi := min 1 (max t0 t1)
        if hi < lo then SGeom.emptyGeom
        else if lo = hi then SGeom.pointG (addScaled p lo r)
        else SGeom.segment (addScaled p lo r) (addScaled p hi r)
  else
    let t := cross2 qp s / rxs
    let u := cross2 qp r / rxs
    if 0 ≤ t ∧ t ≤ 1 ∧ 0 ≤ u ∧ u ≤ 1 then SGeom.pointG (addScaled p t r)
    else SGeom.emptyGeom

/-- The P3 crossing derivation: computed only when both a trail and a
start line are present, by handling the intersection result. -/
def buildP3Crossing (trail startLine : Option (Q2 × Q2)) : Option SGeom :=
  match trail, startLine with
  | some t, some s => crossingOf (segIntersection t s)
  | _, _ => none

/-! ## Spatial Join Engine (`attach_refs_to_gdf`) -/

/-- A reference geometry, abstracted to the two spatial queries the joins
make of it: squared distance from a query point, and containment of a
query point. -/
structure RefGeom where
  dist2 : Q2 → ℚ
  containsPt : Q2 → Bool

/-- The projected points layer: CRS tag and point rows. -/
structure PointsLayer where
  epsg : Option ℤ
  pts : List Q2

/-- The projected references layer: CRS tag and reference rows. -/
structure RefsLayer where
  epsg : Option ℤ
  refs : List RefGeom

/-- Errors of `attach_refs_to_gdf` (both are `ValueError` in the code;
the spec's `CRSMismatchError` and `InvalidJoinModeError`). -/
inductive JoinErr where
  | crsMismatch
  | unknownHow
  deriving DecidableEq

def nearestMode : String := "nearest"
def withinMode : String := "within"

/-- First strictly-minimal entry of an indexed distance list (earlier
index wins ties). -/
def pickMin : List (ℕ × ℚ) → Option (ℕ × ℚ)
  | [] => none
  | x :: xs =>
      match pickMin xs with
      | none => some x
      | some y => if y.2 < x.2 then some y else some x

/-- Index of the nearest reference for one point. -/
def nearestIdx (refs : List RefGeom) (p : Q2) : Option ℕ :=
  (pickMin ((refs.enum).map fun ir => (ir.1, ir.2.dist2 p))).map Prod.fst

/-- Index of the first reference containing one point. -/
def firstContaining (refs : List RefGeom) (p : Q2) : Option ℕ :=
  ((refs.enum).find? fun ir => ir.2.containsPt p).map Prod.fst

/-- `KMLProtocolAnalyzer.attach_refs_to_gdf`: the CRS equality gate, then
the `nearest` or `within` join, else the unknown-mode error.  A joined row
is the point with the index of the matched reference, when any. -/
def attach_refs_to_gdf (ptsL : PointsLayer) (refsL : RefsLayer) (how : String) :
    Except JoinErr (List (Q2 × Option ℕ)) :=
  if ptsL.epsg ≠ refsL.epsg then Except.error JoinErr.crsMismatch
  else if how = nearestMode then
    Except.ok (ptsL.pts.map fun p => (p, nearestIdx refsL.refs p))
  else if how = withinMode then
    Except.ok (ptsL.pts.map fun p => (p, firstContaining refsL.refs p))
  else Except.error JoinErr.unknownHow

/-! ## Ring/Area Calculator (`compute_p2_stats.py`, `plot_protocol.py`)

Regions are modelled by their point sets; shapely `unary_union` and
`difference` are set union and set difference of the underlying point
sets. -/

/-- Union of a list of regions. -/
def unionAll (gs : List (Set Q2)) : Set Q2 := gs.foldr (fun a b => a ∪ b) ∅

/-- `_union_geoms` of `plot_protocol.py`: `None` on an empty list. -/
def unionGeoms (gs : List (Set Q2)) : Option (Set Q2) :=
  if gs.isEmpty then none else some (unionAll gs)

/-- The ring of `plot_protocol.py`: outer union minus inner union when
both exist, the outer union alone when there is no inner geometry, and no
ring at all when there is no outer geometry. -/
def plotRing (outer inner : List (Set Q2)) : Option (Set Q2) :=
  match unionGeoms outer, unionGeoms inner with
  | none, _ => none
  | some o, none => some o
  | some o, some i => some (o \ i)

/-- The ring of `compute_p2_stats.py`: the script stops cleanly
(`SystemExit(0)` after a message) when no outer geometry is found,
modelled as `none`; otherwise outer union, minus the inner union when
inner geometries exist. -/
def computeRingStats (outer inner : List (Set Q2)) : Option (Set Q2) :=
  if outer.isEmpty then none
  else some (match unionGeoms inner with
    | none => unionAll outer
    | some i => unionAll outer \ i)

/-! ## Inside-ratio (`compute_p2_stats.py`, `plot_protocol.py`)

Points carry a source identifier (`_source_file`); the ring containment
test is a decidable predicate.  pandas `groupby` sorts the group keys;
the model keeps them in first-occurrence order, which no claim observes. -/

/-- The rows of one source's group. -/
def groupOf (pts : List (String × Q2)) (s : String) : List (String × Q2) :=
  pts.filter fun x => x.1 = s

/-- Points of the group inside the ring (`grp.geometry.within(ring).sum()`). -/
def insideCount (pts : List (String × Q2)) (ring : Q2 → Bool) (s : String) : ℕ :=
  ((groupOf pts s).filter fun x => ring x.2).length

/-- `100.0 * inside / total if total > 0 else 0.0`. -/
def pctQ (inside total : ℕ) : ℚ :=
  if 0 < total then (100 * inside : ℚ) / (total : ℚ) else 0

/-- The distinct source identifiers. -/
def sourcesOf (pts : List (String × Q2)) : List String :=
  (pts.map Prod.fst).dedup

/-- Per-source `(inside, total, percentage)` rows. -/
def insideRatio (pts : List (String × Q2)) (ring : Q2 → Bool) :
    List (String × ℕ × ℕ × ℚ) :=
  (sourcesOf pts).map fun s =>
    (s, insideCount pts ring s, (groupOf pts s).length,
      pctQ (insideCount pts ring s) (groupOf pts s).length)

/-! ## Concrete data used by examples and witnesses -/

def cProtocol1Start : Chars := "Protocol 1 Start".toList
def cUnrelated : Chars := "unrelated".toList
def cProtocol1 : Chars := "Protocol 1".toList
def cStartPat : Chars := "Start".toList
def cZone2 : Chars := "zone 2".toList
def cAlpha : Chars := "alpha".toList
def cBeta : Chars := "beta".toList
def cGamma : Chars := "gamma".toList
def cDelta : Chars := "delta".toList
def digit2 : Char := '2'

def wProt1Row : Feature := Feature.mk cProtocol1Start [] GType.point
def wUnrelRow : Feature := Feature.mk cUnrelated [] GType.point
def wFrameC3 : Frame := Frame.mk [wProt1Row, wUnrelRow] false

def wZoneRow : Feature := Feature.mk cZone2 [] GType.point
def wFrameC4 : Frame := Frame.mk [wZoneRow] false

def wLineA : Feature := Feature.mk cAlpha [] GType.lineString
def wLineB : Feature := Feature.mk cBeta [] GType.lineString
def wLineC : Feature := Feature.mk cGamma [] GType.multiLineString
def wLineD : Feature := Feature.mk cDelta [] GType.lineString
def wFrameC5 : Frame := Frame.mk [wLineA, wLineB, wLineC, wLineD] false

def wRefAnywhere : RefGeom := RefGeom.mk (fun _ => 0) (fun _ => true)

def srcA : String := "device_a"

/-! # Theorems -/

theorem zipOr_map (rows : List Feature) (f g : Feature → Bool) :
    List.zipWith (fun a b => a || b) (rows.map f) (rows.map g)
      = rows.map fun r => f r || g r := by
  induction rows with
  | nil => rfl
  | cons r rs ih => simp [ih]

theorem selectByMask_map (rows : List Feature) (f : Feature → Bool) :
    selectByMask rows (rows.map f) = rows.filter f := by
  induction rows with
  | nil => rfl
  | cons r rs ih => by_cases h : f r <;> simp [selectByMask, List.filter_cons, h, ih]

theorem foldl_zip_maps (rows : List Feature) (gs : List (Feature → Bool)) :
    ∀ f : Feature → Bool,
      ((gs.map fun g => rows.map g).foldl
          (fun acc x => List.zipWith (fun a b => a || b) acc x) (rows.map f))
        = rows.map fun r => gs.foldl (fun b g => b || g r) (f r) := by
  induction gs with
  | nil => intro f; rfl
  | cons g gs ih =>
      intro f
      simp only [List.map_cons, List.foldl_cons]
      rw [zipOr_map]
      exact ih _

theorem foldl_or_any (r : Feature) (gs : List (Feature → Bool)) :
    ∀ b : Bool, gs.foldl (fun b g => b || g r) b = (b || gs.any fun g => g r) := by
  induction gs with
  | nil => intro b; simp
  | cons g gs ih =>
      intro b
      rw [List.foldl_cons, List.any_cons, ih (b || g r), Bool.or_assoc]

theorem patMasks_eq_maps (fr : Frame) (pats : List Chars) :
    patMasks fr pats = (predsOf fr pats).map fun g => fr.rows.map g := by
  induction pats with
  | nil => rfl
  | cons p ps ih =>
      cases h : fr.hasDescription <;>
        simp [patMasks, predsOf, h, ih, nameMask, descMask]

theorem any_predsOf (fr : Frame) (pats : List Chars) (r : Feature) :
    ((predsOf fr pats).any fun g => g r) = rowPred fr pats r := by
  induction pats with
  | nil => rfl
  | cons p ps ih =>
      cases h : fr.hasDescription <;>
        simp [predsOf, rowPred, h, List.any_cons, ih, Bool.or_assoc]

theorem replicate_eq_map_false (l : List Feature) :
    List.replicate l.length false = l.map fun _ => false := by
  induction l with
  | nil => rfl
  | cons a t ih => rw [List.length_cons, List.replicate_succ, List.map_cons, ih]

theorem orCombine_patMasks (fr : Frame) (pats : List Chars) :
    orCombine (patMasks fr pats) fr.rows.length = fr.rows.map (rowPred fr pats) := by
  rw [patMasks_eq_maps]
  cases hp : predsOf fr pats with
  | nil =>
      have hrp : rowPred fr pats = fun _ => false := by
        funext r
        rw [← any_predsOf, hp]
        rfl
      rw [hrp]
      exact replicate_eq_map_false fr.rows
  | cons g0 gs =>
      show ((gs.map fun g => fr.rows.map g).foldl
          (fun acc x => List.zipWith (fun a b => a || b) acc x) (fr.rows.map g0))
        = fr.rows.map (rowPred fr pats)
      rw [foldl_zip_maps]
      have : (fun r => gs.foldl (fun b g => b || g r) (g0 r)) = rowPred fr pats := by
        funext r
        rw [foldl_or_any, ← any_predsOf fr pats r, hp]
        simp [List.any_cons]
      rw [this]

theorem match_patterns_eq_filter (fr : Frame) (pats : List Chars) :
    match_patterns fr pats = fr.rows.filter (rowPred fr pats) := by
  unfold match_patterns
  rw [orCombine_patMasks, selectByMask_map]

/-- C1: for every finite longitude and latitude, both implementations of
`lonlat_to_utm_epsg` return `32600 + zone` when `latitude >= 0` and
`32700 + zone` otherwise, with `zone = floor((longitude + 180) / 6) mod 60
+ 1` (the spec formula `resolve_utm_epsg_spec`); in particular the EPSG of
(-3, 40) is 32630, of (-3, -40) is 32730, and of (177, 10) is 32660. -/
theorem utm_epsg_matches_spec :
    (∀ lon lat : ℚ, KML_lonlat_to_utm_epsg lon lat = resolve_utm_epsg_spec lon lat) ∧
    (∀ lon lat : ℚ, GPX_lonlat_to_utm_epsg lon lat = KML_lonlat_to_utm_epsg lon lat) ∧
    KML_lonlat_to_utm_epsg (-3) 40 = 32630 ∧
    KML_lonlat_to_utm_epsg (-3) (-40) = 32730 ∧
    KML_lonlat_to_utm_epsg 177 10 = 32660 ∧
    GPX_lonlat_to_utm_epsg (-3) 40 = 32630 := by
  refine ⟨fun lon lat => rfl, fun lon lat => rfl, ?_, ?_, ?_, ?_⟩ <;>
    norm_num [KML_lonlat_to_utm_epsg, GPX_lonlat_to_utm_epsg]

/-- C10: for every finite longitude and latitude, the computed zone lies
in 1..60, so both `lonlat_to_utm_epsg` implementations return a value in
32601..32660 for nonnegative latitude and in 32701..32760 otherwise, even
for longitudes outside [-180, 180]. -/
theorem utm_epsg_range :
    ∀ lon lat : ℚ,
      (if 0 ≤ lat then
        32601 ≤ KML_lonlat_to_utm_epsg lon lat ∧ KML_lonlat_to_utm_epsg lon lat ≤ 32660
      else
        32701 ≤ KML_lonlat_to_utm_epsg lon lat ∧ KML_lonlat_to_utm_epsg lon lat ≤ 32760) ∧
      (if 0 ≤ lat then
        32601 ≤ GPX_lonlat_to_utm_epsg lon lat ∧ GPX_lonlat_to_utm_epsg lon lat ≤ 32660
      else
        32701 ≤ GPX_lonlat_to_utm_epsg lon lat ∧ GPX_lonlat_to_utm_epsg lon lat ≤ 32760) := by
  intro lon lat
  have h1 : 0 ≤ ⌊(lon + 180) / 6⌋ % 60 := Int.emod_nonneg _ (by norm_num)
  have h2 : ⌊(lon + 180) / 6⌋ % 60 < 60 := Int.emod_lt_of_pos _ (by norm_num)
  by_cases h : 0 ≤ lat <;>
    simp only [KML_lonlat_to_utm_epsg, GPX_lonlat_to_utm_epsg, h, if_pos, if_neg,
      not_false_iff, if_true, if_false] <;>
    constructor <;> constructor <;> omega

/-- C2: the KML collection resolver errors (the code's `ValueError`, the
spec's `EmptyInputError`) only when the points collection holds no
coordinate data; for a point collection with coordinates the union
centroid is always defined, and the GPX fallback branch, whenever
coordinates exist, returns the arithmetic mean of the coordinates rather
than a default location, so the centroid path of `to_utm` is then the
centroid of the union. -/
theorem resolve_collection_epsg_fallback :
    (∀ pts : List Q2, (∃ e, KML_project_refs_to_utm_epsg pts = Except.error e) → pts = []) ∧
    (∀ pts : List Q2, pts ≠ [] → ∃ c, unionCentroid pts = some c) ∧
    (∀ pts : List Q2, pts ≠ [] →
      GPX_fallbackMeanLonLat pts = (meanList (pts.map Prod.fst), meanList (pts.map Prod.snd))) ∧
    (∀ pts : List Q2, pts ≠ [] → GPX_to_utm_lonlat pts = unionCentroidD pts) := by
  have hded : ∀ pts : List Q2, pts ≠ [] → pts.dedup.isEmpty = false := by
    intro pts h
    cases hd : pts.dedup with
    | nil => exact absurd ((List.dedup_eq_nil pts).mp hd) h
    | cons a t => rfl
  refine ⟨?_, ?_, ?_, ?_⟩
  · intro pts he
    by_contra h
    obtain ⟨e, he⟩ := he
    simp only [KML_project_refs_to_utm_epsg, List.isEmpty_iff, if_neg h] at he
    exact Except.noConfusion he
  · intro pts h
    exact ⟨unionCentroidD pts, by simp [unionCentroid, hded pts h]⟩
  · intro pts h
    have hp : pts.isEmpty = false := by
      cases pts with
      | nil => exact absurd rfl h
      | cons a t => rfl
    simp [GPX_fallbackMeanLonLat, hp]
  · intro pts h
    simp [GPX_to_utm_lonlat, unionCentroid, hded pts h]

/-- C2 witness: on the one-point collection [(1, 2)] the centroid is
defined and the fallback branch is the arithmetic mean; on the empty
collection the KML resolver errors. -/
theorem resolve_collection_epsg_fallback_witness :
    (∃ c, unionCentroid [((1 : ℚ), (2 : ℚ))] = some c) ∧
    GPX_fallbackMeanLonLat [((1 : ℚ), (2 : ℚ))]
      = (meanList ([((1 : ℚ), (2 : ℚ))].map Prod.fst), meanList ([((1 : ℚ), (2 : ℚ))].map Prod.snd)) ∧
    GPX_to_utm_lonlat [((1 : ℚ), (2 : ℚ))] = unionCentroidD [((1 : ℚ), (2 : ℚ))] ∧
    ([] : List Q2) = [] :=
  ⟨resolve_collection_epsg_fallback.2.1 _ (by simp),
   resolve_collection_epsg_fallback.2.2.1 _ (by simp),
   resolve_collection_epsg_fallback.2.2.2 _ (by simp),
   resolve_collection_epsg_fallback.1 [] ⟨ResolveErr.emptyInput, rfl⟩⟩

/-- C3: `_match_patterns` followed by row selection returns exactly the
rows some pattern matches, case-insensitively, in the name field or (when
the column exists) the Description field — OR across patterns and fields —
and each matched row is selected once; on the names ["Protocol 1 Start",
"unrelated"] and pattern "Protocol 1" the result is exactly the first row,
once, even when a second pattern also matches it. -/
theorem match_patterns_or_semantics :
    (∀ (fr : Frame) (pats : List Chars),
      match_patterns fr pats = fr.rows.filter (rowPred fr pats)) ∧
    match_patterns wFrameC3 [cProtocol1] = [wProt1Row] ∧
    match_patterns wFrameC3 [cProtocol1, cStartPat] = [wProt1Row] :=
  ⟨match_patterns_eq_filter, by decide, by decide⟩

/-- C4: when the primary default pattern set for protocol digit `n` yields
zero matches, `split_by_protocol` retries with the single loose pattern
consisting of the digit alone, matched against the name and the
Description field, and returns that looser subset. -/
theorem split_loose_digit_fallback :
    ∀ (fr : Frame) (n : Char),
      match_patterns fr (defaultPats n) = [] →
      split_by_protocol_for_key fr n = fr.rows.filter (loosePred fr n) := by
  intro fr n h
  unfold split_by_protocol_for_key
  rw [h]
  show selectByMask fr.rows (looseMask fr n) = fr.rows.filter (loosePred fr n)
  exact selectByMask_map fr.rows (loosePred fr n)

/-- C4 witness: on a frame whose only row is named "zone 2" the primary
P2 patterns match nothing and the loose digit retry returns that row. -/
theorem split_loose_digit_fallback_witness :
    split_by_protocol_for_key wFrameC4 digit2 = wFrameC4.rows.filter (loosePred wFrameC4 digit2) ∧
    wFrameC4.rows.filter (loosePred wFrameC4 digit2) = [wZoneRow] :=
  ⟨split_loose_digit_fallback wFrameC4 digit2 (by decide), by decide⟩

/-- C5: when none of Outer, Inner and StartLine resolve by name, the P2
artifacts are the line-type rows of the matched P2 subset assigned
positionally in encounter order to the kinds outer, inner, start_line,
and every line beyond the third gets the generic kind `line i`. -/
theorem p2_positional_fallback :
    ∀ (fr : Frame) (subset : List Feature),
      get_first_named_geom fr sP2Outer = none →
      get_first_named_geom fr sOuterLine = none →
      get_first_named_geom fr sP2Inner = none →
      get_first_named_geom fr sInnerLine = none →
      get_first_named_geom fr sP2Start = none →
      get_first_named_geom fr sStartLine = none →
      (build_p2_artifacts fr subset = p2FallbackRows subset ∧
       p2FallbackRows subset
         = ((subset.filter fun r => isLineType r.gtype).enum).map (fun x => (kindFor x.1, x.2)) ∧
       kindFor 0 = P2Kind.outer ∧ kindFor 1 = P2Kind.inner ∧ kindFor 2 = P2Kind.start_line ∧
       ∀ i : ℕ, 3 ≤ i → kindFor i = P2Kind.line i) := by
  intro fr subset h1 h2 h3 h4 h5 h6
  refine ⟨?_, rfl, rfl, rfl, rfl, ?_⟩
  · simp [build_p2_artifacts, h1, h2, h3, h4, h5, h6, Option.orElse]
  · intro i hi
    unfold kindFor
    rw [if_neg (by omega), if_neg (by omega), if_neg (by omega)]

/-- C5 witness: on a frame of four unlabeled line rows the fallback
assigns outer, inner, start_line positionally and the fourth row the
generic kind. -/
theorem p2_positional_fallback_witness :
    build_p2_artifacts wFrameC5 wFrameC5.rows = p2FallbackRows wFrameC5.rows ∧
    p2FallbackRows wFrameC5.rows
      = [(P2Kind.outer, wLineA), (P2Kind.inner, wLineB), (P2Kind.start_line, wLineC),
         (P2Kind.line 3, wLineD)] :=
  ⟨(p2_positional_fallback wFrameC5 wFrameC5.rows (by decide) (by decide) (by decide)
      (by decide) (by decide) (by decide)).1, by decide⟩

/-- C6 counterexample: with a trail and a start line both present whose
intersection is a (non-point, multi-point) collinear overlap segment, the
derived Crossing is the centroid of the intersection — the midpoint
(3/2, 0) — and not its first point (1, 0) (nor any endpoint), refuting
"the first point in the intersection result's component ordering, never a
centroid". -/
theorem p3_crossing_claim_counterexample :
    segIntersection ((0, 0), (2, 0)) ((1, 0), (3, 0)) = SGeom.segment (1, 0) (2, 0) ∧
    buildP3Crossing (some ((0, 0), (2, 0))) (some ((1, 0), (3, 0)))
      = some (centroidG (SGeom.segment (1, 0) (2, 0))) ∧
    centroidG (SGeom.segment (1, 0) (2, 0)) = SGeom.pointG ((3 : ℚ) / 2, 0) ∧
    SGeom.pointG ((3 : ℚ) / 2, 0) ≠ SGeom.pointG (1, 0) ∧
    SGeom.pointG ((3 : ℚ) / 2, 0) ≠ SGeom.pointG (2, 0) := by
  refine ⟨?_, ?_, ?_, ?_, ?_⟩
  · norm_num [segIntersection, cross2, dot2, sub2, addScaled, onSegQ]
  · norm_num [buildP3Crossing, segIntersection, cross2, dot2, sub2, addScaled, onSegQ,
      crossingOf, sIsEmpty, isPointT, geomsAttr, centroidG]
  · norm_num [centroidG]
  · intro h
    injection h with h'
    have := congrArg Prod.fst h'
    norm_num at this
  · intro h
    injection h with h'
    have := congrArg Prod.fst h'
    norm_num at this

/-- C6 amended: an empty intersection yields no Crossing; a single-point
intersection yields exactly that point (in particular two properly
crossing lines sharing one point); an intersection exposing components
yields its first component, which need not be a point; and a single
non-point intersection without components (a collinear overlap segment)
yields that geometry's centroid. -/
theorem p3_crossing_result_handling :
    (∀ g : SGeom, sIsEmpty g = true → crossingOf g = none) ∧
    (∀ p : Q2, crossingOf (SGeom.pointG p) = some (SGeom.pointG p)) ∧
    (∀ (g h : SGeom) (t : List SGeom),
      sIsEmpty g = false → isPointT g = false → geomsAttr g = some (h :: t) →
      crossingOf g = some h) ∧
    (∀ a b : Q2, crossingOf (SGeom.segment a b)
      = some (SGeom.pointG ((a.1 + b.1) / 2, (a.2 + b.2) / 2))) ∧
    (∀ (t s : Q2 × Q2) (p : Q2), segIntersection t s = SGeom.pointG p →
      buildP3Crossing (some t) (some s) = some (SGeom.pointG p)) ∧
    (∀ t s : Q2 × Q2, segIntersection t s = SGeom.emptyGeom →
      buildP3Crossing (some t) (some s) = none) := by
  refine ⟨?_, ?_, ?_, ?_, ?_, ?_⟩
  · intro g hg
    simp [crossingOf, hg]
  · intro p
    rfl
  · intro g h t h1 h2 h3
    simp [crossingOf, h1, h2, h3]
  · intro a b
    rfl
  · intro t s p h
    show crossingOf (segIntersection t s) = some (SGeom.pointG p)
    rw [h]
    rfl
  · intro t s h
    show crossingOf (segIntersection t s) = none
    rw [h]
    rfl

/-- C6 amended witness: the first component of a two-part multi-line
intersection, the exact single crossing point (1, 1) of two properly
crossing segments, and no Crossing for disjoint parallel segments. -/
theorem p3_crossing_result_handling_witness :
    crossingOf (SGeom.multiLine [((1, 0), (2, 0)), ((3, 0), (4, 0))])
      = some (SGeom.segment (1, 0) (2, 0)) ∧
    buildP3Crossing (some ((0, 0), (2, 2))) (some ((0, 2), (2, 0)))
      = some (SGeom.pointG (1, 1)) ∧
    buildP3Crossing (some ((0, 0), (1, 0))) (some ((0, 1), (1, 1))) = none :=
  ⟨p3_crossing_result_handling.2.2.1 _ _ _ rfl rfl rfl,
   p3_crossing_result_handling.2.2.2.2.1 _ _ _
     (by norm_num [segIntersection, cross2, dot2, sub2, addScaled, onSegQ]),
   p3_crossing_result_handling.2.2.2.2.2 _ _
     (by norm_num [segIntersection, cross2, dot2, sub2, addScaled, onSegQ])⟩

/-- C7: for every pair of layers and every join mode, differing CRS tags
make `attach_refs_to_gdf` fail with the CRS-mismatch error before any
join; a successful join implies equal CRS; and with equal CRS the nearest
and within joins run and return the joined rows. -/
theorem crs_mismatch_gate :
    (∀ (ptsL : PointsLayer) (refsL : RefsLayer) (how : String),
      ptsL.epsg ≠ refsL.epsg →
      attach_refs_to_gdf ptsL refsL how = Except.error JoinErr.crsMismatch) ∧
    (∀ (ptsL : PointsLayer) (refsL : RefsLayer) (how : String)
        (r : List (Q2 × Option ℕ)),
      attach_refs_to_gdf ptsL refsL how = Except.ok r → ptsL.epsg = refsL.epsg) ∧
    (∀ (ptsL : PointsLayer) (refsL : RefsLayer),
      ptsL.epsg = refsL.epsg →
      attach_refs_to_gdf ptsL refsL nearestMode
        = Except.ok (ptsL.pts.map fun p => (p, nearestIdx refsL.refs p)) ∧
      attach_refs_to_gdf ptsL refsL withinMode
        = Except.ok (ptsL.pts.map fun p => (p, firstContaining refsL.refs p))) := by
  refine ⟨?_, ?_, ?_⟩
  · intro ptsL refsL how h
    simp [attach_refs_to_gdf, h]
  · intro ptsL refsL how r h
    by_cases hc : ptsL.epsg = refsL.epsg
    · exact hc
    · simp [attach_refs_to_gdf, hc] at h
  · intro ptsL refsL h
    constructor
    · simp [attach_refs_to_gdf, h, nearestIdx]
    · simp [attach_refs_to_gdf, h, nearestMode, withinMode, firstContaining]

/-- C7 witness: layers tagged 32630 and 32631 fail with the mismatch
error; equal tags produce the nearest and within join rows. -/
theorem crs_mismatch_gate_witness :
    attach_refs_to_gdf (PointsLayer.mk (some 32630) [((0 : ℚ), 0)])
        (RefsLayer.mk (some 32631) [wRefAnywhere]) nearestMode
      = Except.error JoinErr.crsMismatch ∧
    attach_refs_to_gdf (PointsLayer.mk (some 32630) [((0 : ℚ), 0)])
        (RefsLayer.mk (some 32630) [wRefAnywhere]) nearestMode
      = Except.ok ([((0 : ℚ), 0)].map fun p => (p, nearestIdx [wRefAnywhere] p)) ∧
    attach_refs_to_gdf (PointsLayer.mk (some 32630) [((0 : ℚ), 0)])
        (RefsLayer.mk (some 32630) [wRefAnywhere]) withinMode
      = Except.ok ([((0 : ℚ), 0)].map fun p => (p, firstContaining [wRefAnywhere] p)) :=
  ⟨crs_mismatch_gate.1 _ _ _ (by decide),
   (crs_mismatch_gate.2.2 _ _ rfl).1,
   (crs_mismatch_gate.2.2 _ _ rfl).2⟩

/-- C8: both ring computations agree; with no outer geometry the ring is
the explicit `none` result (`plot_protocol` sets no ring and
`compute_p2_stats` stops cleanly), not an error; with outer but no inner
geometries the ring is the outer union; with both it is the outer union
minus the inner union, which is contained in the outer union and disjoint
from the inner union. -/
theorem ring_outer_minus_inner :
    ∀ outer inner : List (Set Q2),
      computeRingStats outer inner = plotRing outer inner ∧
      (outer = [] → plotRing outer inner = none) ∧
      (outer ≠ [] → inner = [] → plotRing outer inner = some (unionAll outer)) ∧
      (outer ≠ [] → inner ≠ [] →
        plotRing outer inner = some (unionAll outer \ unionAll inner) ∧
        unionAll outer \ unionAll inner ⊆ unionAll outer ∧
        (unionAll outer \ unionAll inner) ∩ unionAll inner = ∅) := by
  intro outer inner
  cases outer with
  | nil =>
      exact ⟨rfl, fun _ => rfl, fun h _ => absurd rfl h, fun h _ => absurd rfl h⟩
  | cons o os =>
      cases inner with
      | nil =>
          exact ⟨rfl, fun h => List.noConfusion h, fun _ _ => rfl, fun _ h => absurd rfl h⟩
      | cons i is =>
          refine ⟨rfl, fun h => List.noConfusion h, fun _ h => List.noConfusion h,
            fun _ _ => ⟨rfl, Set.diff_subset, ?_⟩⟩
          ext x
          simp

/-- C8 witness: ring values at concrete outer and inner lists, including
the empty-outer case. -/
theorem ring_outer_minus_inner_witness :
    plotRing [(Set.univ : Set Q2)] [] = some (unionAll [(Set.univ : Set Q2)]) ∧
    plotRing ([] : List (Set Q2)) [] = none ∧
    plotRing [(Set.univ : Set Q2)] [(∅ : Set Q2)]
      = some (unionAll [(Set.univ : Set Q2)] \ unionAll [(∅ : Set Q2)]) ∧
    computeRingStats [(Set.univ : Set Q2)] [(∅ : Set Q2)]
      = plotRing [(Set.univ : Set Q2)] [(∅ : Set Q2)] :=
  ⟨(ring_outer_minus_inner _ _).2.2.1 (by simp) rfl,
   (ring_outer_minus_inner _ _).2.1 rfl,
   ((ring_outer_minus_inner _ _).2.2.2 (by simp) (by simp)).1,
   (ring_outer_minus_inner _ _).1⟩

/-- C9: every source identifier of the points gets a row
(inside, total, percentage) in `insideRatio`, with inside ≤ total, and
the percentage is exactly `100 * inside / total` for a positive total and
exactly 0 for an empty total — total functions on ℚ, no NaN and no
division error. -/
theorem inside_ratio_zero_safe :
    (∀ (pts : List (String × Q2)) (ring : Q2 → Bool) (s : String),
      s ∈ pts.map Prod.fst →
      (s, insideCount pts ring s, (groupOf pts s).length,
        pctQ (insideCount pts ring s) (groupOf pts s).length) ∈ insideRatio pts ring) ∧
    (∀ (pts : List (String × Q2)) (ring : Q2 → Bool) (s : String),
      insideCount pts ring s ≤ (groupOf pts s).length) ∧
    (∀ i : ℕ, pctQ i 0 = 0) ∧
    (∀ i t : ℕ, 0 < t → pctQ i t = (100 * i : ℚ) / (t : ℚ)) := by
  refine ⟨?_, ?_, ?_, ?_⟩
  · intro pts ring s hs
    exact List.mem_map_of_mem _ (List.mem_dedup.mpr hs)
  · intro pts ring s
    exact List.length_filter_le _ _
  · intro i
    simp [pctQ]
  · intro i t ht
    simp [pctQ, ht]

/-- C9 witness: the one-point group of source `srcA` appears with its
counts, and the percentage formula at totals 0 and 2. -/
theorem inside_ratio_zero_safe_witness :
    (srcA, insideCount [(srcA, ((0 : ℚ), 0))] (fun _ => true) srcA,
      (groupOf [(srcA, ((0 : ℚ), 0))] srcA).length,
      pctQ (insideCount [(srcA, ((0 : ℚ), 0))] (fun _ => true) srcA)
        (groupOf [(srcA, ((0 : ℚ), 0))] srcA).length)
      ∈ insideRatio [(srcA, ((0 : ℚ), 0))] (fun _ => true) ∧
    pctQ 5 0 = 0 ∧
    pctQ 1 2 = (100 * 1 : ℚ) / (2 : ℚ) :=
  ⟨inside_ratio_zero_safe.1 _ _ _ (by simp),
   inside_ratio_zero_safe.2.2.1 5,
   inside_ratio_zero_safe.2.2.2 1 2 (by norm_num)⟩
